import Mathlib

/-!
Verification development for the agent-finance data-query service.

Shallow embedding of the NLQ translator (parseWithRules,
parseNaturalLanguageQuery, executeQuery), the Aave protocol module
(rayToAPY, parseUSD, demo data, getAaveTVLAllChains) and the Uniswap
protocol module (getUniswapTVLAllChains, top-pool dispatch).

Modelling conventions:
- JavaScript numbers are modelled as exact decimal fractions (the Dec type
  below), BigInt as Int; every value the embedded code manipulates is such a
  fraction, and rounding errors of binary floats sit far below the 4-decimal
  rounding the code applies.
- Asynchronous calls to external services are modelled as oracle
  parameters returning Except String; a rejected promise or a thrown
  exception carries its message string.
- Promise.allSettled never rejects; it is modelled by evaluating every
  branch and keeping the list of outcomes.
- Date.now() is modelled by explicit time parameters.
- Regular-expression tests from the source are modelled by explicit
  substring and word-boundary scans over the character list; the JS word
  character class is ASCII [A-Za-z0-9_], and toLowerCase/toUpperCase are
  modelled on ASCII letters.
-/

-- ==== Global enumerations (src/packages/data-query/src/types/index.ts) ====

inductive Chain where
  | base
  | arbitrum
  | optimism
  | ethereum
  deriving DecidableEq

inductive Protocol where
  | aaveV3
  | uniswapV3
  | morphoBlue
  deriving DecidableEq

/-- The action field of NLQParsed: "tvl" | "rates" | "pools" | "volume" | "vaults" | "unknown". -/
inductive NLQAction where
  | tvl
  | rates
  | pools
  | volume
  | vaults
  | unknown
  deriving DecidableEq

-- ==== String scanning machinery (models the JS regexes of parseWithRules) ====

/-- ASCII subset of the JS whitespace class used by trim and the regex class. -/
def jsWhitespaceChar (c : Char) : Bool :=
  c = ' ' || c = '\t' || c = '\n' || c = '\r' || c.toNat = 11 || c.toNat = 12

/-- JS String.prototype.trim restricted to ASCII whitespace. -/
def trimWs (s : List Char) : List Char :=
  ((s.dropWhile jsWhitespaceChar).reverse.dropWhile jsWhitespaceChar).reverse

/-- JS regex word character class: [A-Za-z0-9_]. -/
def wordChar (c : Char) : Bool :=
  c.isAlpha || c.isDigit || c = '_'

/-- A word boundary holds next to this neighbouring character (none = string edge).
All boundary-adjacent pattern characters in the source regexes are word
characters, so the boundary holds iff the neighbour is absent or non-word. -/
def nonWordEdge (oc : Option Char) : Bool :=
  match oc with
  | none => true
  | some c => !wordChar c

/-- Does the pattern match at the current position, given the previous character,
with an optional word boundary required on the left or the right? -/
def matchAt (needL needR : Bool) (pat : List Char) (prev : Option Char) (s : List Char) : Bool :=
  (!needL || nonWordEdge prev) && pat.isPrefixOf s
    && (!needR || nonWordEdge (s.drop pat.length).head?)

/-- Scan every position of the string for a boundary-respecting match. -/
def occursFrom (needL needR : Bool) (pat : List Char) : Option Char → List Char → Bool
  | prev, [] => matchAt needL needR pat prev []
  | prev, c :: rest =>
    matchAt needL needR pat prev (c :: rest) || occursFrom needL needR pat (some c) rest

/-- RegExp.prototype.test for a single literal alternative with optional
word boundaries on either side. -/
def reTest (needL needR : Bool) (pat : String) (s : List Char) : Bool :=
  occursFrom needL needR pat.toList none s

def digitsToNat (ds : List Char) : Nat :=
  ds.foldl (fun n c => n * 10 + (c.toNat - 48)) 0

-- ==== parseWithRules (src/unnamed/part_000 lines 131-173) ====

/-- Protocol detection: /aave/ then /uniswap|uni\b/. -/
def detectProtocol (q : List Char) : Option Protocol :=
  if reTest false false "aave" q then some Protocol.aaveV3
  else if reTest false false "uniswap" q || reTest false true "uni" q then some Protocol.uniswapV3
  else none

/-- Chain detection: /\bbase\b/, /arbitrum|arb\b/, /optimism|\bop\b/,
/ethereum|mainnet|\beth\b/ in this order. -/
def detectChain (q : List Char) : Option Chain :=
  if reTest true true "base" q then some Chain.base
  else if reTest false false "arbitrum" q || reTest false true "arb" q then some Chain.arbitrum
  else if reTest false false "optimism" q || reTest true true "op" q then some Chain.optimism
  else if reTest false false "ethereum" q || reTest false false "mainnet" q
      || reTest true true "eth" q then some Chain.ethereum
  else none

/-- Action detection, in the source's fixed evaluation order.
The source ends with `else if (protocol === "aave-v3" && !action) action = "tvl"`,
but at that point action is always the non-empty string "unknown", so `!action`
is false and the branch is dead code; it is therefore not represented here. -/
def detectAction (q : List Char) : NLQAction :=
  if reTest false false "tvl" q || reTest false false "total value locked" q
      || reTest false false "locked" q then NLQAction.tvl
  else if reTest false false "rate" q || reTest false false "apy" q
      || reTest false false "apr" q || reTest false false "yield" q
      || reTest false false "interest" q || reTest false false "lending" q
      || reTest false false "borrow" q || reTest false false "supply" q then NLQAction.rates
  else if reTest false false "pool" q || reTest false false "pair" q
      || reTest false false "liquidity" q then NLQAction.pools
  else if reTest false false "volume" q || reTest false true "vol" q then NLQAction.volume
  else NLQAction.unknown

/-- Alternatives of the token regex
/\b(usdc|usdt|dai|eth|weth|btc|wbtc|matic|arb|op|link|aave)\b/ in source order. -/
def TOKEN_ALTERNATIVES : List String :=
  ["usdc", "usdt", "dai", "eth", "weth", "btc", "wbtc", "matic", "arb", "op", "link", "aave"]

/-- Leftmost match of the token regex: at each position try the alternatives in
order, requiring word boundaries on both sides. -/
def firstTokenFrom : Option Char → List Char → Option String
  | _, [] => none
  | prev, c :: rest =>
    match TOKEN_ALTERNATIVES.find? (fun pat => matchAt true true pat.toList prev (c :: rest)) with
    | some pat => some pat
    | none => firstTokenFrom (some c) rest

/-- Match of /top\s+(\d+)/ anchored at the current position: "top", then one or
more whitespace characters, then a maximal non-empty digit run. -/
def matchTopAt (s : List Char) : Option Nat :=
  if ("top".toList).isPrefixOf s then
    let rest := s.drop 3
    let ws := rest.takeWhile jsWhitespaceChar
    if ws.isEmpty then none
    else
      let ds := (rest.drop ws.length).takeWhile Char.isDigit
      if ds.isEmpty then none else some (digitsToNat ds)
  else none

/-- Leftmost match of /top\s+(\d+)/, with parseInt of the captured digits. -/
def findTopLimit : List Char → Option Nat
  | [] => none
  | c :: rest =>
    match matchTopAt (c :: rest) with
    | some n => some n
    | none => findTopLimit rest

/-- NLQParsed (src/packages/data-query/src/types/index.ts lines 211-218).
token and limit are optional fields; limit is modelled as Nat since every
producer yields a non-negative integer. -/
structure NLQParsed where
  protocol : Option Protocol
  chain : Option Chain
  action : NLQAction
  token : Option String
  limit : Option Nat
  rawIntent : String
  deriving DecidableEq

/-- parseWithRules (src/unnamed/part_000 lines 131-173): lower-case and trim the
query, detect protocol, chain, action, token and limit by the fixed regexes. -/
def parseWithRules (query : String) : NLQParsed :=
  let q : List Char := trimWs (query.toList.map Char.toLower)
  let protocol := detectProtocol q
  let chain := detectChain q
  let action := detectAction q
  let token := (firstTokenFrom none q).map (fun t => String.mk (t.toList.map Char.toUpper))
  let limit := (findTopLimit q).getD 10
  { protocol := protocol, chain := chain, action := action, token := token,
    limit := some limit, rawIntent := query }


-- ==== Stage 2: generative fallback (src/unnamed/part_000 lines 21-127) ====

/-- One block of response.content; kind models the block's type tag
("text" for a text block). -/
structure ContentBlock where
  kind : String
  text : String

/-- Outcome of the awaited client.messages.create call: a rejected promise
with a message, or a fulfilled response with its content array. -/
inductive CallOutcome where
  | reject (msg : String)
  | fulfilled (content : List ContentBlock)

/-- The object produced by JSON.parse of the extracted text, viewed through the
field accesses the source performs. A field that is absent or null in the JSON
is none; the source's null-coalescing defaults then apply. -/
structure ClaudeIntent where
  protocol : Option Protocol
  chain : Option Chain
  action : Option NLQAction
  token : Option String
  limit : Option Nat
  rawIntent : Option String

/-- Oracle for the external world seen by parseNaturalLanguageQuery:
whether ANTHROPIC_API_KEY is set (getAnthropic throws when it is not), the
outcome of the messages.create call, and the behaviour of JSON.parse on the
extracted candidate text (none models a parse exception). -/
structure Stage2Env where
  hasApiKey : Bool
  call : CallOutcome
  jsonParse : String → Option ClaudeIntent

def openBrace : Char := Char.ofNat 123

def closeBrace : Char := Char.ofNat 125

/-- The greedy JSON-extraction regex of the source applied to the response
text: it matches from the first opening brace to the last closing brace,
provided the last closing brace comes strictly after the first opening brace;
otherwise there is no match. -/
def extractJson (text : String) : Option String :=
  let cs := text.toList
  match cs.findIdx? (fun c => c = openBrace) with
  | none => none
  | some i =>
    match (cs.enum.filter (fun p => p.2 = closeBrace)).getLast? with
    | none => none
    | some jc =>
      if i < jc.1 then some (String.mk ((cs.drop i).take (jc.1 - i + 1))) else none

/-- The body of the try block in parseNaturalLanguageQuery (source lines 92-121):
getAnthropic, the messages.create call, the content[0] type check, JSON
extraction, JSON.parse, and the defaulted intent construction. An error value
is a thrown exception or rejected promise carrying its message. The two
messages marked as modelled stand for platform exceptions whose exact text the
caller never inspects. -/
def stage2attempt (env : Stage2Env) (query : String) : Except String NLQParsed :=
  if !env.hasApiKey then Except.error "ANTHROPIC_API_KEY environment variable is not set"
  else
    match env.call with
    | CallOutcome.reject msg => Except.error msg
    | CallOutcome.fulfilled content =>
      match content.head? with
      | none => Except.error "Cannot read properties of undefined" -- modelled TypeError
      | some c0 =>
        if c0.kind ≠ "text" then Except.error "Unexpected response type from Claude"
        else
          match extractJson c0.text with
          | none => Except.error "No JSON found in Claude response"
          | some extracted =>
            match env.jsonParse extracted with
            | none => Except.error "Unexpected token in JSON" -- modelled SyntaxError
            | some r =>
              Except.ok { protocol := r.protocol, chain := r.chain,
                          action := r.action.getD NLQAction.unknown,
                          token := r.token, limit := some (r.limit.getD 10),
                          rawIntent := r.rawIntent.getD query }

/-- parseNaturalLanguageQuery (source lines 82-127), instrumented with the
number of Stage 2 attempts (0 or 1): Stage 1 first; if it resolves both an
action and a protocol, return it immediately; otherwise attempt Stage 2 and on
any failure return the Stage 1 result (the catch block). -/
def parseNLQWithCount (env : Stage2Env) (query : String) : NLQParsed × Nat :=
  let ruleBased := parseWithRules query
  if ruleBased.action ≠ NLQAction.unknown ∧ ruleBased.protocol ≠ none then (ruleBased, 0)
  else
    match stage2attempt env query with
    | Except.ok parsed => (parsed, 1)
    | Except.error _ => (ruleBased, 1)

/-- parseNaturalLanguageQuery as the caller sees it. Its total type records
that NLQ resolution never throws past this boundary. -/
def parseNaturalLanguageQuery (env : Stage2Env) (query : String) : NLQParsed :=
  (parseNLQWithCount env query).1


-- ==== Exact decimal numbers ====

/-- JavaScript numbers, as this code base uses them, are modelled by exact
decimal fractions m over 10 to the s: every literal, parsed string, sum,
product, comparison and 4-decimal rounding in the embedded code stays inside
this set. Values are kept normalized (no trailing zero in m while s is
positive) so that structural equality is value equality, and every operation
reduces inside the kernel. -/
structure Dec where
  m : Int
  s : Nat
  deriving DecidableEq

/-- Strip factors of ten from the mantissa while the scale is positive. -/
def Dec.normAux : Int → Nat → Int × Nat
  | m, 0 => (m, 0)
  | m, s + 1 => if m % 10 = 0 then Dec.normAux (m / 10) s else (m, s + 1)

/-- The decimal m over 10 to the s, normalized. -/
def dec (m : Int) (s : Nat) : Dec :=
  let p := Dec.normAux m s
  { m := p.1, s := p.2 }

instance (n : Nat) : OfNat Dec n := ⟨dec n 0⟩

instance : OfScientific Dec :=
  ⟨fun m b e => if b then dec m e else dec ((m : Int) * 10 ^ e) 0⟩

def Dec.add (a b : Dec) : Dec :=
  dec (a.m * 10 ^ (max a.s b.s - a.s) + b.m * 10 ^ (max a.s b.s - b.s)) (max a.s b.s)

instance : Add Dec := ⟨Dec.add⟩

def Dec.mul (a b : Dec) : Dec := dec (a.m * b.m) (a.s + b.s)

instance : Mul Dec := ⟨Dec.mul⟩

def Dec.neg (a : Dec) : Dec := { m := -a.m, s := a.s }

instance : Neg Dec := ⟨Dec.neg⟩

/-- Comparison by cross multiplication. -/
def Dec.le (a b : Dec) : Bool :=
  decide (a.m * 10 ^ b.s ≤ b.m * 10 ^ a.s)

/-- Exact division by a power of ten. -/
def Dec.divPow10 (a : Dec) (k : Nat) : Dec := dec a.m (a.s + k)

/-- Exact multiplication by an integer power of ten. -/
def Dec.mulPow10 (a : Dec) (e : Int) : Dec :=
  match e with
  | Int.ofNat k => dec (a.m * 10 ^ k) a.s
  | Int.negSucc k => dec a.m (a.s + (k + 1))

/-- Rounding to the nearest integer, half toward positive infinity: the floor
of the value plus one half. -/
def Dec.roundInt (a : Dec) : Int :=
  Int.fdiv (2 * a.m + 10 ^ a.s) (2 * 10 ^ a.s)

-- ==== Aave module (src/packages/data-query/src/protocols/aave.ts) ====

/-- const RAY = BigInt of 1e27 (aave.ts line 190). -/
def RAY : Int := 1000000000000000000000000000

def parseDecDigits (l : List Char) : Option Nat :=
  if l ≠ [] ∧ l.all Char.isDigit then some (digitsToNat l) else none

/-- BigInt(string) on decimal string literals: whitespace is trimmed, the empty
string yields 0, an optional sign is followed by a non-empty digit run, and any
other shape throws (none). The hexadecimal, octal and binary prefixed forms
accepted by BigInt are not modelled; they do not occur in subgraph payloads. -/
def parseBigIntLiteral (s : String) : Option Int :=
  let t := trimWs s.toList
  match t with
  | [] => some 0
  | c :: rest =>
    if c = '-' then (parseDecDigits rest).map (fun n => -(n : Int))
    else if c = '+' then (parseDecDigits rest).map (fun n => (n : Int))
    else (parseDecDigits t).map (fun n => (n : Int))

/-- Rounding to 4 decimal places, modelling toFixed(4) followed by parseFloat:
toFixed picks the closest 4-decimal value, taking the larger on a tie, which
is rounding half toward positive infinity. -/
def round4 (x : Dec) : Dec :=
  dec (Dec.roundInt (x * dec 10000 0)) 4

/-- rayToAPY (aave.ts 192-200): BigInt-parse the ray string, divide by RAY,
multiply by 100 and round to 4 decimal places; any parse failure is caught and
yields 0. RAY is 10 to the 27, so the division is an exact decimal shift. -/
def rayToAPY (ray : String) : Dec :=
  match parseBigIntLiteral ray with
  | none => 0
  | some n =>
    let ratePerYear := Dec.divPow10 (dec n 0) 27
    round4 (ratePerYear * dec 100 0)

/-- parseFloat on a finite decimal literal: skip leading whitespace, optional
sign, then the longest prefix of the form digits [. digits] [e|E [sign]
digits]; none models NaN (no digits at all). The Infinity literal is not
modelled. -/
def jsParseFloat (s : String) : Option Dec :=
  let t := (s.toList).dropWhile jsWhitespaceChar
  let negative : Bool :=
    match t with
    | c :: _ => c = '-'
    | [] => false
  let u : List Char :=
    match t with
    | c :: rest => if c = '-' ∨ c = '+' then rest else t
    | [] => t
  let intPart := u.takeWhile Char.isDigit
  let afterInt := u.drop intPart.length
  let fracPart : List Char :=
    match afterInt with
    | c :: rest => if c = '.' then rest.takeWhile Char.isDigit else []
    | [] => []
  let afterFrac : List Char :=
    match afterInt with
    | c :: rest => if c = '.' then rest.drop fracPart.length else afterInt
    | [] => afterInt
  if intPart.isEmpty ∧ fracPart.isEmpty then none
  else
    let mantissa : Dec :=
      dec ((digitsToNat intPart : Int) * 10 ^ fracPart.length + (digitsToNat fracPart : Int))
        fracPart.length
    let signed : Dec := if negative then -mantissa else mantissa
    let expo : Int :=
      match afterFrac with
      | c :: rest =>
        if c = 'e' ∨ c = 'E' then
          match rest with
          | d :: ds =>
            if d = '-' then
              (let eds := ds.takeWhile Char.isDigit
               if eds.isEmpty then 0 else -(digitsToNat eds : Int))
            else if d = '+' then
              (let eds := ds.takeWhile Char.isDigit
               if eds.isEmpty then 0 else (digitsToNat eds : Int))
            else
              (let eds := (d :: ds).takeWhile Char.isDigit
               if eds.isEmpty then 0 else (digitsToNat eds : Int))
          | [] => 0
        else 0
      | [] => 0
    some (Dec.mulPow10 signed expo)

/-- parseUSD (aave.ts 202-205): parseFloat of the value (defaulting an absent
value to the string 0); NaN becomes 0. -/
def parseUSD (val : Option String) : Dec :=
  match jsParseFloat (val.getD "0") with
  | none => 0
  | some n => n

/-- AaveReserveFormatted (types/index.ts 45-52). -/
structure AaveReserveFormatted where
  symbol : String
  name : String
  tvlUSD : Dec
  supplyAPY : Dec
  borrowAPY : Dec
  utilizationRate : Dec
  deriving DecidableEq

/-- AaveTVL (types/index.ts 36-43) plus the demo transparency fields the demo
path attaches. -/
structure AaveTVL where
  protocol : Protocol := Protocol.aaveV3
  chain : Chain
  totalTVLUSD : Dec
  reserveCount : Nat
  topReserves : List AaveReserveFormatted
  timestamp : Nat
  demo : Bool := false
  demoNote : Option String := none
  deriving DecidableEq

/-- AaveLendingRates (types/index.ts 54-59) plus the demo transparency fields. -/
structure AaveLendingRates where
  protocol : Protocol := Protocol.aaveV3
  chain : Chain
  rates : List AaveReserveFormatted
  timestamp : Nat
  demo : Bool := false
  demoNote : Option String := none
  deriving DecidableEq

/-- The module-level DEMO_DATA literal (aave.ts 51-186); a chain outside the
record (ethereum) yields the empty list, as the coalescing with the empty
array in the demo accessors does. -/
def DEMO_DATA (chain : Chain) : List AaveReserveFormatted :=
  match chain with
  | Chain.base =>
    [ { symbol := "USDC", name := "USD Coin", tvlUSD := 82500000,
        supplyAPY := 4.85, borrowAPY := 6.23, utilizationRate := 78.4 },
      { symbol := "WETH", name := "Wrapped Ether", tvlUSD := 47200000,
        supplyAPY := 1.92, borrowAPY := 3.11, utilizationRate := 62.1 },
      { symbol := "cbBTC", name := "Coinbase Wrapped BTC", tvlUSD := 28900000,
        supplyAPY := 0.41, borrowAPY := 1.75, utilizationRate := 31.5 },
      { symbol := "USDbC", name := "USD Base Coin", tvlUSD := 12300000,
        supplyAPY := 3.94, borrowAPY := 5.47, utilizationRate := 71.2 },
      { symbol := "wstETH", name := "Wrapped liquid staked Ether 2.0", tvlUSD := 9800000,
        supplyAPY := 0.12, borrowAPY := 0.85, utilizationRate := 18.9 } ]
  | Chain.arbitrum =>
    [ { symbol := "USDC", name := "USD Coin", tvlUSD := 195000000,
        supplyAPY := 5.12, borrowAPY := 6.78, utilizationRate := 81.3 },
      { symbol := "USDT", name := "Tether USD", tvlUSD := 98400000,
        supplyAPY := 4.77, borrowAPY := 6.25, utilizationRate := 76.8 },
      { symbol := "WETH", name := "Wrapped Ether", tvlUSD := 87600000,
        supplyAPY := 1.85, borrowAPY := 3.02, utilizationRate := 64.4 },
      { symbol := "WBTC", name := "Wrapped BTC", tvlUSD := 54200000,
        supplyAPY := 0.38, borrowAPY := 1.64, utilizationRate := 29.7 },
      { symbol := "ARB", name := "Arbitrum", tvlUSD := 18700000,
        supplyAPY := 0.09, borrowAPY := 2.31, utilizationRate := 12.3 },
      { symbol := "DAI", name := "Dai Stablecoin", tvlUSD := 15300000,
        supplyAPY := 4.21, borrowAPY := 5.89, utilizationRate := 69.5 } ]
  | Chain.optimism =>
    [ { symbol := "USDC", name := "USD Coin", tvlUSD := 89000000,
        supplyAPY := 4.63, borrowAPY := 6.01, utilizationRate := 77.2 },
      { symbol := "WETH", name := "Wrapped Ether", tvlUSD := 52800000,
        supplyAPY := 1.74, borrowAPY := 2.89, utilizationRate := 61.7 },
      { symbol := "WBTC", name := "Wrapped BTC", tvlUSD := 24600000,
        supplyAPY := 0.29, borrowAPY := 1.52, utilizationRate := 26.4 },
      { symbol := "OP", name := "Optimism", tvlUSD := 11200000,
        supplyAPY := 0.07, borrowAPY := 1.98, utilizationRate := 9.8 },
      { symbol := "DAI", name := "Dai Stablecoin", tvlUSD := 8900000,
        supplyAPY := 3.87, borrowAPY := 5.42, utilizationRate := 65.3 } ]
  | Chain.ethereum => []

/-- The mutable module state of aave.ts: the current contents of the
module-level DEMO_DATA arrays, shared across requests. -/
structure AaveDemoStore where
  data : Chain → List AaveReserveFormatted

def initialAaveDemoStore : AaveDemoStore := { data := DEMO_DATA }

def insertReserveByAPY (x : AaveReserveFormatted) :
    List AaveReserveFormatted → List AaveReserveFormatted
  | [] => [x]
  | y :: ys =>
    if Dec.le y.supplyAPY x.supplyAPY then x :: y :: ys else y :: insertReserveByAPY x ys

/-- Stable sort, descending by supplyAPY, modelling Array.prototype.sort with
the comparator that subtracts supply APYs (ECMAScript sort is stable). -/
def sortByAPYDesc (l : List AaveReserveFormatted) : List AaveReserveFormatted :=
  l.foldr insertReserveByAPY []

/-- getDemoTVL (aave.ts 225-240): read the current demo array for the chain
and wrap it; reduce gives the total TVL. -/
def getDemoTVL (chain : Chain) (now : Nat) (store : AaveDemoStore) : AaveTVL :=
  let reserves := store.data chain
  { protocol := Protocol.aaveV3, chain := chain,
    totalTVLUSD := reserves.foldl (fun s r => s + r.tvlUSD) 0,
    reserveCount := reserves.length,
    topReserves := reserves,
    timestamp := now,
    demo := true,
    demoNote := some "Demo data. Set GRAPH_API_KEY for live data." }

/-- getDemoRates (aave.ts 242-256): sort the demo array for the chain by
supply APY descending and slice to the limit. Array.prototype.sort runs in
place on the module-level array, so the store is updated with the sorted
array. -/
def getDemoRates (chain : Chain) (limit : Nat) (now : Nat) (store : AaveDemoStore) :
    AaveLendingRates × AaveDemoStore :=
  let sorted := sortByAPYDesc (store.data chain)
  let newStore : AaveDemoStore := { data := fun c => if c = chain then sorted else store.data c }
  ({ protocol := Protocol.aaveV3, chain := chain, rates := sorted.take limit,
     timestamp := now, demo := true,
     demoNote := some "Demo data. Set GRAPH_API_KEY for live data." }, newStore)

/-- SUPPORTED_CHAINS of aave.ts (line 260). -/
def AAVE_SUPPORTED_CHAINS : List Chain := [Chain.base, Chain.arbitrum, Chain.optimism]

/-- getAaveTVLAllChains (aave.ts 345-355) over an oracle for the per-chain
getAaveTVL outcome: Promise.allSettled over the supported chains settles every
branch, then the fulfilled outcomes are kept and their values taken. -/
def getAaveTVLAllChains (fetch : Chain → Except String AaveTVL) : List AaveTVL :=
  let results := AAVE_SUPPORTED_CHAINS.map fetch
  results.filterMap Except.toOption


-- ==== Uniswap module (src/unnamed/part_001) ====

/-- UniswapPoolFormatted (types/index.ts 86-94). -/
structure UniswapPoolFormatted where
  pair : String
  feeTier : Dec
  tvlUSD : Dec
  volume24hUSD : Dec
  fees24hUSD : Dec
  txCount : Nat
  price : String
  deriving DecidableEq

/-- UniswapTVL (types/index.ts 77-84) plus the demo transparency fields. -/
structure UniswapTVL where
  protocol : Protocol := Protocol.uniswapV3
  chain : Chain
  totalTVLUSD : Dec
  poolCount : Nat
  topPools : List UniswapPoolFormatted
  timestamp : Nat
  demo : Bool := false
  demoNote : Option String := none
  deriving DecidableEq

/-- The orderBy parameter of getUniswapTopPools: "tvl" | "volume" | "fees". -/
inductive OrderBy where
  | tvl
  | volume
  | fees
  deriving DecidableEq

/-- SUPPORTED_CHAINS of the Uniswap module (part_001 line 218). -/
def UNISWAP_SUPPORTED_CHAINS : List Chain := [Chain.base, Chain.arbitrum]

/-- getUniswapTVLAllChains (part_001 lines 343-353) over an oracle for the
per-chain getUniswapTVL outcome: Promise.allSettled over the supported chains
settles every branch, then the fulfilled outcomes are kept and their values
taken. -/
def getUniswapTVLAllChains (fetch : Chain → Except String UniswapTVL) : List UniswapTVL :=
  let results := UNISWAP_SUPPORTED_CHAINS.map fetch
  results.filterMap Except.toOption

-- ==== Dispatcher (src/unnamed/part_000 lines 175-284) ====

/-- The single-chain accessor functions the NLQ translator imports
(part_000 lines 10-19), as oracles for their awaited outcomes: an error value
is a rejected promise or thrown exception carrying its message. The
all-chains variants are not separate oracles; in the protocol modules they
are the fan-out definitions above applied to these single-chain accessors. -/
structure Accessors where
  getAaveTVL : Chain → Except String AaveTVL
  getAaveLendingRates : Chain → Nat → Except String AaveLendingRates
  getUniswapTVL : Chain → Except String UniswapTVL
  getUniswapTopPools : Chain → Nat → OrderBy → Except String (List UniswapPoolFormatted)

/-- The heterogeneous shapes the dispatch branches assign to data. -/
inductive DispatchData where
  | aaveTVLOne (t : AaveTVL)
  | aaveTVLList (ts : List AaveTVL)
  | aaveRatesOne (r : AaveLendingRates)
  | aaveRatesList (rs : List AaveLendingRates)
  | uniswapTVLOne (t : UniswapTVL)
  | uniswapTVLList (ts : List UniswapTVL)
  | uniswapPools (ps : List UniswapPoolFormatted)
  | uniswapPoolsByChain (base : Option (List UniswapPoolFormatted))
      (arbitrum : Option (List UniswapPoolFormatted))
  deriving DecidableEq

/-- QueryResult (types/index.ts 189-198); optional fields left unset by a
construction site are none. -/
structure QueryResult where
  success : Bool
  query : String
  protocol : Option Protocol := none
  chain : Option Chain := none
  data : Option DispatchData := none
  error : Option String := none
  executionTimeMs : Nat
  timestamp : Nat
  deriving DecidableEq

/-- The success envelope built at the end of the try block (part_000 263-271). -/
def mkSuccess (parsed : NLQParsed) (d : DispatchData) (startT now : Nat) : QueryResult :=
  { success := true, query := parsed.rawIntent, protocol := parsed.protocol,
    chain := parsed.chain, data := some d, executionTimeMs := now - startT,
    timestamp := now }

/-- The fixed guidance message of the unknown-protocol branch (part_000 256-257). -/
def unresolvedProtocolMessage : String :=
  "Could not determine protocol. Try specifying \x27Aave\x27 or \x27Uniswap\x27 in your query."

/-- The inline rates fan-out of the dispatcher (part_000 203-211):
Promise.allSettled over base, arbitrum and optimism, keeping the fulfilled
values. allSettled never rejects, so this never errors. -/
def aaveRatesAllChains (accs : Accessors) (lim : Nat) : Except String DispatchData :=
  let settled := [accs.getAaveLendingRates Chain.base lim,
                  accs.getAaveLendingRates Chain.arbitrum lim,
                  accs.getAaveLendingRates Chain.optimism lim]
  Except.ok (DispatchData.aaveRatesList (settled.filterMap Except.toOption))

/-- The Aave V3 branch (part_000 191-218). The source guard
chain && chain !== "ethereum" selects the single-chain call exactly when a
chain is present and is not ethereum; otherwise the all-chains variant runs. -/
def aaveDispatch (accs : Accessors) (parsed : NLQParsed) : Except String DispatchData :=
  let lim := parsed.limit.getD 10
  match parsed.action with
  | NLQAction.tvl =>
    match parsed.chain with
    | some c =>
      if c = Chain.ethereum then
        Except.ok (DispatchData.aaveTVLList (getAaveTVLAllChains accs.getAaveTVL))
      else (accs.getAaveTVL c).map DispatchData.aaveTVLOne
    | none => Except.ok (DispatchData.aaveTVLList (getAaveTVLAllChains accs.getAaveTVL))
  | NLQAction.rates =>
    match parsed.chain with
    | some c =>
      if c = Chain.ethereum then aaveRatesAllChains accs lim
      else (accs.getAaveLendingRates c lim).map DispatchData.aaveRatesOne
    | none => aaveRatesAllChains accs lim
  | _ =>
    match parsed.chain with
    | some c =>
      if c = Chain.ethereum then
        Except.ok (DispatchData.aaveTVLList (getAaveTVLAllChains accs.getAaveTVL))
      else (accs.getAaveTVL c).map DispatchData.aaveTVLOne
    | none => Except.ok (DispatchData.aaveTVLList (getAaveTVLAllChains accs.getAaveTVL))

/-- The default two-chain fan-out for pools and volume (part_000 233-241):
allSettled over base and arbitrum, then a chain-keyed record whose entry is
null (none) for a rejected branch. -/
def uniswapPoolsDefault (accs : Accessors) (lim : Nat) (orderBy : OrderBy) :
    Except String DispatchData :=
  Except.ok (DispatchData.uniswapPoolsByChain
    ((accs.getUniswapTopPools Chain.base lim orderBy).toOption)
    ((accs.getUniswapTopPools Chain.arbitrum lim orderBy).toOption))

/-- The Uniswap V3 branch (part_000 221-248). The source guard
chain && (chain === "base" || chain === "arbitrum") selects the single-chain
call exactly when a chain is present and supported; otherwise the all-chains
or default two-chain variant runs. -/
def uniswapDispatch (accs : Accessors) (parsed : NLQParsed) : Except String DispatchData :=
  let lim := parsed.limit.getD 10
  match parsed.action with
  | NLQAction.tvl =>
    match parsed.chain with
    | some c =>
      if c = Chain.base ∨ c = Chain.arbitrum then
        (accs.getUniswapTVL c).map DispatchData.uniswapTVLOne
      else Except.ok (DispatchData.uniswapTVLList (getUniswapTVLAllChains accs.getUniswapTVL))
    | none =>
      Except.ok (DispatchData.uniswapTVLList (getUniswapTVLAllChains accs.getUniswapTVL))
  | NLQAction.pools | NLQAction.volume =>
    let orderBy := if parsed.action = NLQAction.volume then OrderBy.volume else OrderBy.tvl
    match parsed.chain with
    | some c =>
      if c = Chain.base ∨ c = Chain.arbitrum then
        (accs.getUniswapTopPools c lim orderBy).map DispatchData.uniswapPools
      else uniswapPoolsDefault accs lim orderBy
    | none => uniswapPoolsDefault accs lim orderBy
  | _ =>
    match parsed.chain with
    | some c =>
      if c = Chain.base ∨ c = Chain.arbitrum then
        (accs.getUniswapTVL c).map DispatchData.uniswapTVLOne
      else Except.ok (DispatchData.uniswapTVLList (getUniswapTVLAllChains accs.getUniswapTVL))
    | none =>
      Except.ok (DispatchData.uniswapTVLList (getUniswapTVLAllChains accs.getUniswapTVL))

/-- The try block body of executeQuery (part_000 185-271): branch on the
protocol, compute data, and return the success envelope; the unknown-protocol
branch returns the failed guidance envelope from inside the try block. An
error value is an exception escaping the chosen branch toward the catch. -/
def executeQueryBody (accs : Accessors) (parsed : NLQParsed) (startT now : Nat) :
    Except String QueryResult :=
  match parsed.protocol with
  | some Protocol.aaveV3 =>
    (aaveDispatch accs parsed).map (fun d => mkSuccess parsed d startT now)
  | some Protocol.uniswapV3 =>
    (uniswapDispatch accs parsed).map (fun d => mkSuccess parsed d startT now)
  | _ =>
    Except.ok { success := false, query := parsed.rawIntent,
                error := some unresolvedProtocolMessage,
                executionTimeMs := now - startT, timestamp := now }

/-- executeQuery (part_000 180-284): run the dispatch body and catch any
exception into a failed envelope carrying the exception message. Its total
type records that no exception escapes. -/
def executeQuery (accs : Accessors) (parsed : NLQParsed) (startT now : Nat) : QueryResult :=
  match executeQueryBody accs parsed startT now with
  | Except.ok r => r
  | Except.error msg =>
    { success := false, query := parsed.rawIntent, protocol := parsed.protocol,
      chain := parsed.chain, error := some msg,
      executionTimeMs := now - startT, timestamp := now }

-- ==== Concrete fixtures for witnesses and counterexamples ====

def sampleAaveTVL (c : Chain) : AaveTVL :=
  { chain := c, totalTVLUSD := 0, reserveCount := 0, topReserves := [], timestamp := 0 }

def sampleUniswapTVL (c : Chain) : UniswapTVL :=
  { chain := c, totalTVLUSD := 0, poolCount := 0, topPools := [], timestamp := 0 }

def sampleRates (c : Chain) : AaveLendingRates :=
  { chain := c, rates := [], timestamp := 0 }

/-- Accessor oracle in which every call succeeds with a chain-tagged value. -/
def okAccessors : Accessors :=
  { getAaveTVL := fun c => Except.ok (sampleAaveTVL c),
    getAaveLendingRates := fun c _ => Except.ok (sampleRates c),
    getUniswapTVL := fun c => Except.ok (sampleUniswapTVL c),
    getUniswapTopPools := fun _ _ _ => Except.ok [] }

/-- Accessor oracle in which every call rejects with the message boom. -/
def failAccessors : Accessors :=
  { getAaveTVL := fun _ => Except.error "boom",
    getAaveLendingRates := fun _ _ => Except.error "boom",
    getUniswapTVL := fun _ => Except.error "boom",
    getUniswapTopPools := fun _ _ _ => Except.error "boom" }

/-- Accessor oracle whose Aave TVL call succeeds only for ethereum. -/
def ethOnlyAaveAccessors : Accessors :=
  { okAccessors with
    getAaveTVL := fun c =>
      if c = Chain.ethereum then Except.ok (sampleAaveTVL c) else Except.error "down" }

/-- Aave TVL oracle in which exactly the arbitrum branch fails. -/
def arbFailFetch : Chain → Except String AaveTVL :=
  fun c => if c = Chain.arbitrum then Except.error "down" else Except.ok (sampleAaveTVL c)

/-- A Stage 2 environment whose generative call always fails: the credential
is absent, so getAnthropic throws before anything else. -/
def noKeyEnv : Stage2Env :=
  { hasApiKey := false, call := CallOutcome.reject "network", jsonParse := fun _ => none }

/-- A canonical intent naming the fully-implemented morpho-blue protocol. -/
def intentMorphoTvl : NLQParsed :=
  { protocol := some Protocol.morphoBlue, chain := none, action := NLQAction.tvl,
    token := none, limit := some 10, rawIntent := "morpho tvl" }

/-- Fusion helper: filtering the settled outcomes of a mapped fan-out is the
filterMap of the per-element outcome. -/
theorem filterMap_toOption_of_map {α β γ : Type} (f : α → Except γ β) (l : List α) :
    (l.map f).filterMap Except.toOption = l.filterMap (fun a => (f a).toOption) :=
  List.filterMap_map f Except.toOption l

/-- Composition helper for mapped exception-carrying results. -/
theorem except_map_map {α β γ ε : Type} (f : α → β) (g : β → γ) (x : Except ε α) :
    Except.map g (Except.map f x) = Except.map (fun a => g (f a)) x := by
  cases x <;> rfl

-- ==== Claim theorems ====

/-- C1 counterexample: the canonical intent parsed from "aave on base" has
action unknown, yet the dispatcher does not short-circuit to the failed
guidance envelope: it invokes the Aave TVL accessor and returns a success
envelope carrying that accessor's data. -/
theorem unknownAction_reaches_accessor :
    (parseWithRules "aave on base").action = NLQAction.unknown ∧
    executeQuery okAccessors (parseWithRules "aave on base") 0 0 =
      mkSuccess (parseWithRules "aave on base")
        (DispatchData.aaveTVLOne (sampleAaveTVL Chain.base)) 0 0 := by
  decide

/-- C1 amended: an intent with no resolved protocol short-circuits to the
failed envelope with the fixed guidance message, identically for every
accessor environment (so no Protocol Accessor is invoked). Amended because an
intent with a resolved protocol but action unknown is not short-circuited: it
falls through to that protocol's default TVL branch (see the counterexample). -/
theorem nullProtocol_shortcircuits (accs : Accessors) (parsed : NLQParsed)
    (startT now : Nat) (hp : parsed.protocol = none) :
    executeQuery accs parsed startT now =
      { success := false, query := parsed.rawIntent,
        error := some unresolvedProtocolMessage,
        executionTimeMs := now - startT, timestamp := now } := by
  unfold executeQuery executeQueryBody
  rw [hp]

/-- C1 amended witness at the unresolvable query "hello". -/
theorem nullProtocol_shortcircuits_witness :
    executeQuery okAccessors (parseWithRules "hello") 0 5 =
      { success := false, query := (parseWithRules "hello").rawIntent,
        error := some unresolvedProtocolMessage,
        executionTimeMs := 5, timestamp := 5 } :=
  nullProtocol_shortcircuits okAccessors (parseWithRules "hello") 0 5 (by decide)

/-- C2: when Stage 1 resolves both a protocol and a non-unknown action,
parseNaturalLanguageQuery returns the Stage 1 intent unchanged and the Stage 2
generative call count is zero, for every external environment. -/
theorem stage1_resolved_skips_stage2 (env : Stage2Env) (query : String)
    (ha : (parseWithRules query).action ≠ NLQAction.unknown)
    (hp : (parseWithRules query).protocol ≠ none) :
    parseNLQWithCount env query = (parseWithRules query, 0) := by
  simp [parseNLQWithCount, ha, hp]

/-- C2 witness at "aave tvl on base", which Stage 1 fully resolves. -/
theorem stage1_resolved_skips_stage2_witness :
    parseNLQWithCount noKeyEnv "aave tvl on base" = (parseWithRules "aave tvl on base", 0) :=
  stage1_resolved_skips_stage2 noKeyEnv "aave tvl on base" (by decide) (by decide)

/-- C3: whenever the Stage 2 attempt fails, whatever the cause (missing
credential, rejected call, non-text content, no JSON object found, malformed
JSON), parseNaturalLanguageQuery returns the Stage 1 rule-based result; its
total type records that resolution never throws past this boundary. -/
theorem stage2_failure_falls_back (env : Stage2Env) (query msg : String)
    (h : stage2attempt env query = Except.error msg) :
    parseNaturalLanguageQuery env query = parseWithRules query := by
  simp only [parseNaturalLanguageQuery, parseNLQWithCount, h]
  split <;> rfl

/-- C3 witness: with the credential absent, Stage 2 fails and the ambiguous
query "hello" resolves to its Stage 1 result. -/
theorem stage2_failure_falls_back_witness :
    parseNaturalLanguageQuery noKeyEnv "hello" = parseWithRules "hello" :=
  stage2_failure_falls_back noKeyEnv "hello"
    "ANTHROPIC_API_KEY environment variable is not set" rfl

/-- C4: any exception raised in the chosen dispatch branch is caught at the
outer boundary and converted into a failed envelope with success false, the
exception's message as error, and executionTimeMs populated; the total type of
executeQuery records that nothing escapes. -/
theorem dispatch_exception_caught (accs : Accessors) (parsed : NLQParsed)
    (startT now : Nat) (msg : String)
    (h : executeQueryBody accs parsed startT now = Except.error msg) :
    executeQuery accs parsed startT now =
      { success := false, query := parsed.rawIntent, protocol := parsed.protocol,
        chain := parsed.chain, data := none, error := some msg,
        executionTimeMs := now - startT, timestamp := now } := by
  unfold executeQuery
  rw [h]

/-- C4 witness: with every accessor rejecting, the envelope for
"aave tvl on base" carries the rejection message and the elapsed time. -/
theorem dispatch_exception_caught_witness :
    executeQuery failAccessors (parseWithRules "aave tvl on base") 2 7 =
      { success := false, query := (parseWithRules "aave tvl on base").rawIntent,
        protocol := (parseWithRules "aave tvl on base").protocol,
        chain := (parseWithRules "aave tvl on base").chain,
        data := none, error := some "boom", executionTimeMs := 5, timestamp := 7 } :=
  dispatch_exception_caught failAccessors (parseWithRules "aave tvl on base") 2 7 "boom" rfl

/-- C5: every all-chains fan-out settles every branch, omits each failed
chain and returns exactly the succeeding chains' records in the requested
chain order, and never fails as a whole: the Aave and Uniswap TVL fan-outs and
the dispatcher's rates fan-out equal the filterMap of per-chain successes over
the requested chain list, and with one of the three Aave chains failing the
result is exactly the two succeeding records in order. -/
theorem allChains_fanout_omits_failures :
    (∀ fetch : Chain → Except String AaveTVL,
      getAaveTVLAllChains fetch
        = AAVE_SUPPORTED_CHAINS.filterMap (fun c => (fetch c).toOption))
    ∧ (∀ fetch : Chain → Except String UniswapTVL,
      getUniswapTVLAllChains fetch
        = UNISWAP_SUPPORTED_CHAINS.filterMap (fun c => (fetch c).toOption))
    ∧ (∀ (accs : Accessors) (lim : Nat),
      aaveRatesAllChains accs lim = Except.ok (DispatchData.aaveRatesList
        ([Chain.base, Chain.arbitrum, Chain.optimism].filterMap
          (fun c => (accs.getAaveLendingRates c lim).toOption))))
    ∧ (∀ (fetch : Chain → Except String AaveTVL) (e : String) (v1 v3 : AaveTVL),
      fetch Chain.base = Except.ok v1 → fetch Chain.arbitrum = Except.error e →
      fetch Chain.optimism = Except.ok v3 →
      getAaveTVLAllChains fetch = [v1, v3]) := by
  refine ⟨fun fetch => filterMap_toOption_of_map fetch AAVE_SUPPORTED_CHAINS,
          fun fetch => filterMap_toOption_of_map fetch UNISWAP_SUPPORTED_CHAINS,
          fun accs lim => rfl, ?_⟩
  intro fetch e v1 v3 h1 h2 h3
  simp [getAaveTVLAllChains, AAVE_SUPPORTED_CHAINS, h1, h2, h3, Except.toOption]

/-- C5 witness: with exactly the arbitrum branch failing, the Aave fan-out is
the base and optimism records, in that order. -/
theorem allChains_fanout_omits_failures_witness :
    getAaveTVLAllChains arbFailFetch = [sampleAaveTVL Chain.base, sampleAaveTVL Chain.optimism] :=
  allChains_fanout_omits_failures.2.2.2 arbFailFetch "down"
    (sampleAaveTVL Chain.base) (sampleAaveTVL Chain.optimism) rfl rfl rfl

/-- C6 counterexample: a TVL intent whose chain is given as ethereum does not
run the single-chain query for that chain: with an oracle in which only the
ethereum call would succeed, the dispatcher returns the (empty) all-chains
fan-out instead of the available single-chain result. -/
theorem tvl_given_chain_not_single :
    ethOnlyAaveAccessors.getAaveTVL Chain.ethereum = Except.ok (sampleAaveTVL Chain.ethereum) ∧
    executeQuery ethOnlyAaveAccessors (parseWithRules "aave tvl on ethereum") 0 0 =
      mkSuccess (parseWithRules "aave tvl on ethereum") (DispatchData.aaveTVLList []) 0 0 :=
  ⟨rfl, by decide⟩

/-- C6 amended: for a TVL intent the dispatcher runs the single-chain query
exactly when the given chain is supported by the protocol (not ethereum for
Aave; base or arbitrum for Uniswap); when the chain is omitted, or given but
unsupported, it runs the all-chains fan-out. -/
theorem tvl_chain_dispatch (accs : Accessors) (parsed : NLQParsed) (startT now : Nat) :
    ((parsed.protocol = some Protocol.aaveV3 → parsed.action = NLQAction.tvl →
      ((∀ c, parsed.chain = some c → c ≠ Chain.ethereum →
        executeQueryBody accs parsed startT now
          = (accs.getAaveTVL c).map
              (fun t => mkSuccess parsed (DispatchData.aaveTVLOne t) startT now))
      ∧ ((parsed.chain = none ∨ parsed.chain = some Chain.ethereum) →
        executeQueryBody accs parsed startT now
          = Except.ok (mkSuccess parsed
              (DispatchData.aaveTVLList (getAaveTVLAllChains accs.getAaveTVL)) startT now))))
    ∧ (parsed.protocol = some Protocol.uniswapV3 → parsed.action = NLQAction.tvl →
      ((∀ c, parsed.chain = some c → (c = Chain.base ∨ c = Chain.arbitrum) →
        executeQueryBody accs parsed startT now
          = (accs.getUniswapTVL c).map
              (fun t => mkSuccess parsed (DispatchData.uniswapTVLOne t) startT now))
      ∧ ((parsed.chain = none ∨ parsed.chain = some Chain.optimism
            ∨ parsed.chain = some Chain.ethereum) →
        executeQueryBody accs parsed startT now
          = Except.ok (mkSuccess parsed
              (DispatchData.uniswapTVLList (getUniswapTVLAllChains accs.getUniswapTVL))
              startT now))))) := by
  constructor
  · intro hp ha
    constructor
    · intro c hc hne
      simp [executeQueryBody, hp, aaveDispatch, ha, hc, hne, except_map_map]
    · rintro (hc | hc) <;>
        simp [executeQueryBody, hp, aaveDispatch, ha, hc, Except.map]
  · intro hp ha
    constructor
    · intro c hc hcs
      rcases hcs with h | h <;> subst h <;>
        simp [executeQueryBody, hp, uniswapDispatch, ha, hc, except_map_map]
    · rintro (hc | hc | hc) <;>
        simp [executeQueryBody, hp, uniswapDispatch, ha, hc, Except.map]

/-- C6 amended witness: "aave tvl on base" runs the single-chain Aave TVL
query for base. -/
theorem tvl_chain_dispatch_witness :
    executeQueryBody okAccessors (parseWithRules "aave tvl on base") 0 0
      = (okAccessors.getAaveTVL Chain.base).map
          (fun t => mkSuccess (parseWithRules "aave tvl on base")
            (DispatchData.aaveTVLOne t) 0 0) :=
  ((tvl_chain_dispatch okAccessors (parseWithRules "aave tvl on base") 0 0).1
    (by decide) (by decide)).1 Chain.base (by decide) (by decide)

/-- C7: a DEX pools or volume intent with the chain omitted queries exactly
base and arbitrum, maps volume to the order-by-volume parameter and pools to
order-by-TVL, and returns the chain-keyed record whose entry is none (null)
for a chain whose fetch failed - not a flat list. -/
theorem dex_default_two_chain_map (accs : Accessors) (parsed : NLQParsed) (startT now : Nat)
    (hp : parsed.protocol = some Protocol.uniswapV3)
    (ha : parsed.action = NLQAction.pools ∨ parsed.action = NLQAction.volume)
    (hc : parsed.chain = none) :
    executeQueryBody accs parsed startT now
      = Except.ok (mkSuccess parsed
          (DispatchData.uniswapPoolsByChain
            ((accs.getUniswapTopPools Chain.base (parsed.limit.getD 10)
              (if parsed.action = NLQAction.volume then OrderBy.volume else OrderBy.tvl)).toOption)
            ((accs.getUniswapTopPools Chain.arbitrum (parsed.limit.getD 10)
              (if parsed.action = NLQAction.volume then OrderBy.volume else OrderBy.tvl)).toOption))
          startT now) := by
  rcases ha with h | h <;>
    simp [executeQueryBody, hp, uniswapDispatch, h, hc, uniswapPoolsDefault, Except.map]

/-- C7 witness at "top 5 uniswap pools", whose Stage 1 intent has protocol
uniswap-v3, action pools, limit 5 and no chain. -/
theorem dex_default_two_chain_map_witness :
    executeQueryBody okAccessors (parseWithRules "top 5 uniswap pools") 0 0
      = Except.ok (mkSuccess (parseWithRules "top 5 uniswap pools")
          (DispatchData.uniswapPoolsByChain
            ((okAccessors.getUniswapTopPools Chain.base
              ((parseWithRules "top 5 uniswap pools").limit.getD 10)
              (if (parseWithRules "top 5 uniswap pools").action = NLQAction.volume
                then OrderBy.volume else OrderBy.tvl)).toOption)
            ((okAccessors.getUniswapTopPools Chain.arbitrum
              ((parseWithRules "top 5 uniswap pools").limit.getD 10)
              (if (parseWithRules "top 5 uniswap pools").action = NLQAction.volume
                then OrderBy.volume else OrderBy.tvl)).toOption))
          0 0) :=
  dex_default_two_chain_map okAccessors (parseWithRules "top 5 uniswap pools") 0 0
    (by decide) (Or.inl (by decide)) (by decide)

/-- C8: rayToAPY of the 5 percent ray value is exactly 5 (5.0000 after the
4-decimal rounding the source applies), any string that is not a valid
integer literal converts to 0, and parseUSD of a non-numeric string is 0. -/
theorem ray_and_usd_conversion :
    rayToAPY "50000000000000000000000000" = 5
    ∧ (∀ s, parseBigIntLiteral s = none → rayToAPY s = 0)
    ∧ (∀ s, jsParseFloat s = none → parseUSD (some s) = 0) := by
  refine ⟨by decide, ?_, ?_⟩
  · intro s h
    simp [rayToAPY, h]
  · intro s h
    simp [parseUSD, h]

/-- C8 witness at two malformed inputs. -/
theorem ray_and_usd_conversion_witness :
    rayToAPY "fifty" = 0 ∧ parseUSD (some "n/a") = 0 :=
  ⟨ray_and_usd_conversion.2.1 "fifty" (by decide),
   ray_and_usd_conversion.2.2 "n/a" (by decide)⟩

/-- C9: the code violates the no-shared-mutation claim. getDemoRates sorts the
module-level demo array in place (Array.prototype.sort mutates), so a
demo-mode TVL call after a demo-mode rates call returns topReserves in supply
APY order instead of the original order: the first conjunct is the order
before the rates call, the second the changed order after it. -/
theorem demoRates_mutates_demoTVL_order :
    ((getDemoTVL Chain.base 0 initialAaveDemoStore).topReserves.map (fun r => r.symbol)
        = ["USDC", "WETH", "cbBTC", "USDbC", "wstETH"])
    ∧ ((getDemoTVL Chain.base 0
          (getDemoRates Chain.base 10 0 initialAaveDemoStore).2).topReserves.map
            (fun r => r.symbol)
        = ["USDC", "USDbC", "WETH", "cbBTC", "wstETH"]) := by
  decide

/-- C10: an intent whose protocol is morpho-blue (a Protocol member with fully
implemented accessors) falls into the dispatcher's unknown-protocol branch:
the failed guidance envelope is returned, identically for every accessor
environment, so the Morpho accessors are unreachable from the dispatcher
(which does not even import them). -/
theorem morphoBlue_unresolved (accs : Accessors) (parsed : NLQParsed) (startT now : Nat)
    (hp : parsed.protocol = some Protocol.morphoBlue) :
    executeQuery accs parsed startT now =
      { success := false, query := parsed.rawIntent,
        error := some unresolvedProtocolMessage,
        executionTimeMs := now - startT, timestamp := now } := by
  unfold executeQuery executeQueryBody
  rw [hp]

/-- C10 witness at a concrete morpho-blue intent. -/
theorem morphoBlue_unresolved_witness :
    executeQuery okAccessors intentMorphoTvl 0 3 =
      { success := false, query := intentMorphoTvl.rawIntent,
        error := some unresolvedProtocolMessage,
        executionTimeMs := 3, timestamp := 3 } :=
  morphoBlue_unresolved okAccessors intentMorphoTvl 0 3 rfl
